import Mathlib

/-!
Shallow embedding of the consultation-form controller (src/App.tsx and
src/unnamed/part_000, the types module).

The controller is a React component holding seven pieces of state:
status, errorMessage, prefillData, company, profession, description,
isSubmitting.  The two async operations (loadData and handleSubmit) are
embedded as state transformers parameterised by the outcome of their
single network call; JavaScript truthiness on the id strings is made
explicit.
-/

namespace ConsultForm

/-- `Payment: number | string` from the PrefillData interface. -/
inductive PaymentValue where
  | num (n : Int)
  | str (s : String)
deriving Repr, DecidableEq

/-- The `PrefillData` interface of src/unnamed/part_000: the record read
from the GET endpoint.  Optional fields are `Option String`. -/
structure PrefillData where
  Name : String
  Email : String
  Payment : PaymentValue
  Link : String
  Company : Option String
  Profession : Option String
  Submitted : Option String
deriving Repr, DecidableEq

/-- The `SubmissionPayload` interface: the body POSTed to the write
endpoint. -/
structure SubmissionPayload where
  id : String
  Company : String
  Profession : String
  Description : String
deriving Repr, DecidableEq

/-- The `AppStatus` enum. -/
inductive AppStatus where
  | LOADING
  | IDLE
  | ERROR
  | ALREADY_SUBMITTED
  | MISSING_ID
  | SUCCESS
deriving Repr, DecidableEq

/-- The component state: the seven `useState` hooks of `App`. -/
structure AppState where
  status : AppStatus
  errorMessage : String
  prefillData : Option PrefillData
  company : String
  profession : String
  description : String
  isSubmitting : Bool
deriving Repr, DecidableEq

/-- The initial values of the seven hooks on mount
(`LOADING`, `''`, `null`, `''`, `''`, `''`, `false`). -/
def initialState : AppState :=
  { status := .LOADING
    errorMessage := ""
    prefillData := none
    company := ""
    profession := ""
    description := ""
    isSubmitting := false }

/-- A resolved HTTP response for the read call: `ok`, `status`,
`statusText`, and the parsed JSON body (the body is only consulted when
`ok` is true). -/
structure FetchResponse where
  ok : Bool
  status : Nat
  statusText : String
  body : PrefillData
deriving Repr, DecidableEq

/-- Outcome of the awaited read call: either a resolved response, or a
rejection.  A rejection carries `some m` when the thrown value is an
`Error` instance with message `m`, and `none` when it is not an `Error`
(the `error instanceof Error` test in the catch block). -/
inductive FetchOutcome where
  | response (r : FetchResponse)
  | thrown (errMsg : Option String)
deriving Repr, DecidableEq

/-- Outcome of the awaited write call: a resolved response (only its
`ok` flag is consulted) or a rejection, as in `FetchOutcome`. -/
inductive WriteOutcome where
  | response (ok : Bool)
  | thrown (errMsg : Option String)
deriving Repr, DecidableEq

/-- `targetId || params.get('id')` followed by the `!id` guard:
JavaScript `||` skips `undefined` and the empty string, and
`params.get` yields `null` (here `none`) for a missing parameter.
The result `""` is exactly the falsy case that triggers `MISSING_ID`. -/
def resolveId (targetId urlId : Option String) : String :=
  match targetId with
  | some t => if t = "" then (urlId.getD "") else t
  | none => urlId.getD ""

/-- Message thrown for a 404 read response (App.tsx line 33). -/
def notFoundMessage (id : String) : String :=
  "ID \"" ++ id ++ "\" not found. Please check your personalized link."

/-- Message thrown for any other non-ok read response (App.tsx line 35). -/
def serverErrorMessage (code : Nat) (statusText : String) : String :=
  "Server returned error " ++ toString code ++ ": " ++ statusText

/-- Fallback message when the read call rejects with a non-Error value
(App.tsx line 48). -/
def connectMessage : String :=
  "Failed to connect to the server. Please check your internet connection."

/-- Message thrown for a non-ok write response (App.tsx line 83). -/
def submitFailedMessage : String :=
  "Submission failed. The server might be temporarily busy."

/-- Fallback message when the write call rejects with a non-Error value
(App.tsx line 88). -/
def submitGenericMessage : String :=
  "Could not submit your form. Please try again."

/-- The synchronous prefix of `loadData`, up to the first `await`:
`setStatus(LOADING); setErrorMessage('')` (lines 17-18). -/
def loadDataStart (s : AppState) : AppState :=
  { s with status := .LOADING, errorMessage := "" }

/-- Whether `loadData` reaches the `fetch` call, i.e. issues a network
request: it does exactly when the resolved id is truthy. -/
def loadDataRequests (targetId urlId : Option String) : Bool :=
  resolveId targetId urlId != ""

/-- The whole of `loadData` (App.tsx lines 16-51), given the outcome of
the single read call.  When the resolved id is falsy the outcome is
never consulted (no request is issued; see `loadDataRequests`). -/
def loadData (s : AppState) (targetId urlId : Option String)
    (outcome : FetchOutcome) : AppState :=
  let s0 := loadDataStart s
  let id := resolveId targetId urlId
  if id = "" then
    { s0 with status := .MISSING_ID }
  else
    match outcome with
    | .thrown errMsg =>
        { s0 with errorMessage := errMsg.getD connectMessage, status := .ERROR }
    | .response r =>
        if r.ok then
          if r.body.Submitted = some "Yes" then
            { s0 with status := .ALREADY_SUBMITTED }
          else
            { s0 with prefillData := some r.body, status := .IDLE }
        else if r.status = 404 then
          { s0 with errorMessage := notFoundMessage id, status := .ERROR }
        else
          { s0 with errorMessage := serverErrorMessage r.status r.statusText,
                    status := .ERROR }

/-- JavaScript `String.prototype.trim()`: drop leading and trailing
whitespace characters, embedded directly on the character list. -/
def jsTrim (s : String) : String :=
  ⟨((s.data.dropWhile Char.isWhitespace).reverse.dropWhile
      Char.isWhitespace).reverse⟩

/-- `prefillData.Link || params.get('id') || ''` (App.tsx line 64),
with JavaScript truthiness made explicit. -/
def effectiveId (link : String) (urlId : Option String) : String :=
  if link = "" then urlId.getD "" else link

/-- The payload built at App.tsx lines 66-71: the effective id plus the
three editable fields with `trim()` applied. -/
def buildPayload (s : AppState) (data : PrefillData) (urlId : Option String) :
    SubmissionPayload :=
  { id := effectiveId data.Link urlId
    Company := jsTrim s.company
    Profession := jsTrim s.profession
    Description := jsTrim s.description }

/-- The whole of `handleSubmit` (App.tsx lines 57-91), given the outcome
of the single write call.  Returns the new state together with the
payload POSTed, `none` when the guard `if (!prefillData) return` fires
and no request is issued. -/
def handleSubmit (s : AppState) (urlId : Option String)
    (outcome : WriteOutcome) : AppState × Option SubmissionPayload :=
  match s.prefillData with
  | none => (s, none)
  | some data =>
    let s1 := { s with isSubmitting := true, errorMessage := "" }
    let payload := buildPayload s data urlId
    let s2 :=
      match outcome with
      | .response ok =>
          if ok then
            { s1 with status := .SUCCESS }
          else
            { s1 with errorMessage := submitFailedMessage, isSubmitting := false }
      | .thrown errMsg =>
          { s1 with errorMessage := errMsg.getD submitGenericMessage,
                    isSubmitting := false }
    (s2, some payload)

/-- The literal test id of `handleTestLink` (App.tsx line 94). -/
def testId : String := "rsjk3i"

/-- The user-driven events of the controller, as wired in
`renderContent`: the Retry button calls `loadData()`, the sample-id
buttons call `handleTestLink` (which calls `loadData(testId)`), the form
fires `handleSubmit`, and the three inputs fire their setters. -/
inductive Event where
  | retry
  | testLink
  | submit
  | setCompany (v : String)
  | setProfession (v : String)
  | setDescription (v : String)
deriving Repr, DecidableEq

/-- Which events the rendered screen for each status exposes
(App.tsx lines 104-312): LOADING, ALREADY_SUBMITTED and SUCCESS render
no interactive control; MISSING_ID renders the sample-id button
(line 125); ERROR renders Retry (line 142) and the sample-id button
(line 148); IDLE renders the form and the three inputs. -/
def eventAvailable (st : AppStatus) (e : Event) : Bool :=
  match st, e with
  | .MISSING_ID, .testLink => true
  | .ERROR, .retry => true
  | .ERROR, .testLink => true
  | .IDLE, .submit => true
  | .IDLE, .setCompany _ => true
  | .IDLE, .setProfession _ => true
  | .IDLE, .setDescription _ => true
  | _, _ => false

/-- The environment of one step: the page URL's id parameter and the
outcome each network call would have if issued. -/
structure Env where
  urlId : Option String
  readOutcome : FetchOutcome
  writeOutcome : WriteOutcome
deriving Repr, DecidableEq

/-- One complete controller step: the handler an event is wired to, run
to completion. -/
def step (s : AppState) (e : Event) (env : Env) : AppState :=
  match e with
  | .retry => loadData s none env.urlId env.readOutcome
  | .testLink => loadData s (some testId) env.urlId env.readOutcome
  | .submit => (handleSubmit s env.urlId env.writeOutcome).1
  | .setCompany v => { s with company := v }
  | .setProfession v => { s with profession := v }
  | .setDescription v => { s with description := v }

/-- Whether a write outcome is a success: a resolved response with
`ok = true`.  Everything else takes the catch branch of `handleSubmit`. -/
def writeOk : WriteOutcome → Bool
  | .response ok => ok
  | .thrown _ => false

/-- A concrete record carrying the Submitted sentinel. -/
def sampleRecordYes : PrefillData :=
  { Name := "Ada", Email := "ada@example.com", Payment := .num 250
    Link := "lnk42", Company := some "OldCo", Profession := some "CTO"
    Submitted := some "Yes" }

/-- A concrete record without the Submitted sentinel. -/
def sampleRecordNo : PrefillData :=
  { Name := "Bob", Email := "bob@example.com", Payment := .str "99"
    Link := "lnk7", Company := some "PrevCo", Profession := some "Dev"
    Submitted := none }

/-- A concrete idle state with the whitespace-padded field inputs of the
trimming property. -/
def paddedFieldsState : AppState :=
  { initialState with
    status := .IDLE
    prefillData := some sampleRecordNo
    company := "  Acme  "
    profession := " Lead "
    description := " Build X " }

theorem data_append (a b : String) : (a ++ b).data = a.data ++ b.data := by
  cases a; cases b; rfl

theorem notFoundMessage_head (id : String) :
    (notFoundMessage id).data.head? = some 'I' := by
  simp [notFoundMessage, data_append]

theorem serverErrorMessage_head (c : Nat) (t : String) :
    (serverErrorMessage c t).data.head? = some 'S' := by
  simp [serverErrorMessage, data_append]

theorem notFound_ne_serverError (id : String) (c : Nat) (t : String) :
    notFoundMessage id ≠ serverErrorMessage c t := by
  intro h
  have h1 := notFoundMessage_head id
  have h2 := serverErrorMessage_head c t
  rw [h] at h1
  rw [h1] at h2
  exact absurd h2 (by decide)

/-- C1: for every present id whose read request returns a success
response with a record whose Submitted field equals the sentinel "Yes",
loadData resolves status to ALREADY_SUBMITTED, whatever the other record
fields hold. -/
theorem C1_submitted_sentinel (s : AppState) (targetId urlId : Option String)
    (r : FetchResponse) (hid : resolveId targetId urlId ≠ "")
    (hok : r.ok = true) (hsub : r.body.Submitted = some "Yes") :
    (loadData s targetId urlId (.response r)).status = .ALREADY_SUBMITTED := by
  simp [loadData, loadDataStart, hid, hok, hsub]

theorem C1_witness :
    resolveId (some "rsjk3i") none ≠ "" ∧
    (FetchResponse.mk true 200 "OK" sampleRecordYes).ok = true ∧
    sampleRecordYes.Submitted = some "Yes" ∧
    (loadData initialState (some "rsjk3i") none
        (.response (FetchResponse.mk true 200 "OK" sampleRecordYes))).status
      = .ALREADY_SUBMITTED :=
  ⟨by decide, rfl, rfl,
    C1_submitted_sentinel initialState (some "rsjk3i") none
      (FetchResponse.mk true 200 "OK" sampleRecordYes) (by decide) rfl rfl⟩

/-- C2: a failed write from idle leaves status at IDLE, preserves the
three editable fields, sets a non-empty error message and resets the
submitting flag.  The last hypothesis is the environmental fact that a
rejection carrying an Error instance carries a non-empty message (both
in-code throws use fixed non-empty strings). -/
theorem C2_write_failure (s : AppState) (urlId : Option String)
    (o : WriteOutcome) (hidle : s.status = .IDLE)
    (hdata : s.prefillData.isSome = true) (hfail : writeOk o = false)
    (hmsg : ∀ m, o = .thrown (some m) → m ≠ "") :
    (handleSubmit s urlId o).1.status = .IDLE ∧
    (handleSubmit s urlId o).1.company = s.company ∧
    (handleSubmit s urlId o).1.profession = s.profession ∧
    (handleSubmit s urlId o).1.description = s.description ∧
    (handleSubmit s urlId o).1.errorMessage ≠ "" ∧
    (handleSubmit s urlId o).1.isSubmitting = false := by
  obtain ⟨data, hd⟩ := Option.isSome_iff_exists.mp hdata
  match o with
  | .response ok =>
      have hok : ok = false := by simpa [writeOk] using hfail
      subst hok
      simp [handleSubmit, hd, hidle, submitFailedMessage]
  | .thrown errMsg =>
      match errMsg with
      | none => simp [handleSubmit, hd, hidle, submitGenericMessage]
      | some m =>
          have hm : m ≠ "" := hmsg m rfl
          simp [handleSubmit, hd, hidle, hm]

theorem C2_witness :
    paddedFieldsState.status = .IDLE ∧
    paddedFieldsState.prefillData.isSome = true ∧
    writeOk (.response false) = false ∧
    ((handleSubmit paddedFieldsState none (.response false)).1.status = .IDLE ∧
     (handleSubmit paddedFieldsState none (.response false)).1.company
        = paddedFieldsState.company ∧
     (handleSubmit paddedFieldsState none (.response false)).1.profession
        = paddedFieldsState.profession ∧
     (handleSubmit paddedFieldsState none (.response false)).1.description
        = paddedFieldsState.description ∧
     (handleSubmit paddedFieldsState none (.response false)).1.errorMessage ≠ "" ∧
     (handleSubmit paddedFieldsState none (.response false)).1.isSubmitting
        = false) :=
  ⟨rfl, rfl, rfl,
    C2_write_failure paddedFieldsState none (.response false) rfl rfl rfl
      (by intro m h; cases h)⟩

/-- C3: with a loaded record, the id placed in the outgoing payload is
the record's Link when that is non-empty, else the query-string id, and
it is empty only when the Link is empty and the query id is absent
(missing or empty, the JavaScript-falsy cases). -/
theorem C3_effective_id (s : AppState) (data : PrefillData)
    (urlId : Option String) (o : WriteOutcome)
    (h : s.prefillData = some data) :
    (handleSubmit s urlId o).2.map SubmissionPayload.id
      = some (effectiveId data.Link urlId) ∧
    (data.Link ≠ "" → effectiveId data.Link urlId = data.Link) ∧
    (data.Link = "" → effectiveId data.Link urlId = urlId.getD "") ∧
    (effectiveId data.Link urlId = "" →
      data.Link = "" ∧ (urlId = none ∨ urlId = some "")) := by
  refine ⟨?_, ?_, ?_, ?_⟩
  · cases o with
    | response ok => cases ok <;> simp [handleSubmit, h, buildPayload]
    | thrown errMsg => simp [handleSubmit, h, buildPayload]
  · intro hne; simp [effectiveId, hne]
  · intro heq; simp [effectiveId, heq]
  · intro hempty
    by_cases hl : data.Link = ""
    · refine ⟨hl, ?_⟩
      rw [effectiveId, if_pos hl] at hempty
      cases urlId with
      | none => exact Or.inl rfl
      | some u => exact Or.inr (by simpa using hempty)
    · rw [effectiveId, if_neg hl] at hempty
      exact absurd hempty hl

theorem C3_witness :
    paddedFieldsState.prefillData = some sampleRecordNo ∧
    ((handleSubmit paddedFieldsState (some "qid") (.response true)).2.map
        SubmissionPayload.id = some (effectiveId sampleRecordNo.Link (some "qid")) ∧
     (sampleRecordNo.Link ≠ "" →
        effectiveId sampleRecordNo.Link (some "qid") = sampleRecordNo.Link) ∧
     (sampleRecordNo.Link = "" →
        effectiveId sampleRecordNo.Link (some "qid") = (some "qid").getD "") ∧
     (effectiveId sampleRecordNo.Link (some "qid") = "" →
        sampleRecordNo.Link = "" ∧
          ((some "qid" : Option String) = none ∨ some "qid" = some ""))) :=
  ⟨rfl, C3_effective_id paddedFieldsState sampleRecordNo (some "qid")
    (.response true) rfl⟩

/-- C4: when loadData runs on mount (no target id) and the page URL has
no id parameter, status resolves to MISSING_ID and no network request is
issued, whatever outcome the read call would have had. -/
theorem C4_missing_id (s : AppState) (o : FetchOutcome) :
    (loadData s none none o).status = .MISSING_ID ∧
    loadDataRequests none none = false := by
  constructor
  · simp [loadData, loadDataStart, resolveId]
  · rfl

/-- C5: with a loaded record, the payload's Company, Profession and
Description are the current field values with leading and trailing
whitespace removed. -/
theorem C5_trimmed_fields (s : AppState) (data : PrefillData)
    (urlId : Option String) (o : WriteOutcome)
    (h : s.prefillData = some data) :
    (handleSubmit s urlId o).2.map SubmissionPayload.Company
      = some (jsTrim s.company) ∧
    (handleSubmit s urlId o).2.map SubmissionPayload.Profession
      = some (jsTrim s.profession) ∧
    (handleSubmit s urlId o).2.map SubmissionPayload.Description
      = some (jsTrim s.description) := by
  cases o with
  | response ok => cases ok <;> simp [handleSubmit, h, buildPayload]
  | thrown errMsg => simp [handleSubmit, h, buildPayload]

theorem C5_witness :
    paddedFieldsState.prefillData = some sampleRecordNo ∧
    (handleSubmit paddedFieldsState none (.response true)).2.map
        SubmissionPayload.Company = some "Acme" ∧
    (handleSubmit paddedFieldsState none (.response true)).2.map
        SubmissionPayload.Profession = some "Lead" ∧
    (handleSubmit paddedFieldsState none (.response true)).2.map
        SubmissionPayload.Description = some "Build X" := by
  have h := C5_trimmed_fields paddedFieldsState sampleRecordNo none
    (.response true) rfl
  exact ⟨rfl, h.1.trans (by rfl), h.2.1.trans (by rfl), h.2.2.trans (by rfl)⟩

/-- C6: a 404 read response resolves to ERROR with a message distinct
from the message produced by any other non-ok status code, across any
two loads. -/
theorem C6_not_found_distinct (s s' : AppState)
    (targetId urlId targetId' urlId' : Option String) (r r' : FetchResponse)
    (hid : resolveId targetId urlId ≠ "")
    (hid' : resolveId targetId' urlId' ≠ "")
    (hok : r.ok = false) (h404 : r.status = 404)
    (hok' : r'.ok = false) (h404' : r'.status ≠ 404) :
    (loadData s targetId urlId (.response r)).status = .ERROR ∧
    (loadData s targetId urlId (.response r)).errorMessage ≠
      (loadData s' targetId' urlId' (.response r')).errorMessage := by
  constructor
  · simp [loadData, loadDataStart, hid, hok, h404]
  · have e1 : (loadData s targetId urlId (.response r)).errorMessage
        = notFoundMessage (resolveId targetId urlId) := by
      simp [loadData, loadDataStart, hid, hok, h404]
    have e2 : (loadData s' targetId' urlId' (.response r')).errorMessage
        = serverErrorMessage r'.status r'.statusText := by
      simp [loadData, loadDataStart, hid', hok', h404']
    rw [e1, e2]
    exact notFound_ne_serverError _ _ _

theorem C6_witness :
    resolveId (some "rsjk3i") none ≠ "" ∧
    resolveId (some "rsjk3i") none ≠ "" ∧
    (FetchResponse.mk false 404 "Not Found" sampleRecordNo).ok = false ∧
    (FetchResponse.mk false 404 "Not Found" sampleRecordNo).status = 404 ∧
    (FetchResponse.mk false 500 "Oops" sampleRecordNo).ok = false ∧
    (FetchResponse.mk false 500 "Oops" sampleRecordNo).status ≠ 404 ∧
    ((loadData initialState (some "rsjk3i") none
        (.response (FetchResponse.mk false 404 "Not Found" sampleRecordNo))).status
        = .ERROR ∧
     (loadData initialState (some "rsjk3i") none
        (.response (FetchResponse.mk false 404 "Not Found" sampleRecordNo))).errorMessage ≠
       (loadData initialState (some "rsjk3i") none
        (.response (FetchResponse.mk false 500 "Oops" sampleRecordNo))).errorMessage) :=
  ⟨by decide, by decide, rfl, rfl, rfl, by decide,
    C6_not_found_distinct initialState initialState (some "rsjk3i") none
      (some "rsjk3i") none _ _ (by decide) (by decide) rfl rfl rfl (by decide)⟩

/-- C7: a success response without the Submitted sentinel, loaded from
the freshly mounted state, stores the record, resolves to IDLE, and
leaves the three editable fields at their initial empty values, whatever
the record holds. -/
theorem C7_idle_empty_fields (targetId urlId : Option String)
    (r : FetchResponse) (hid : resolveId targetId urlId ≠ "")
    (hok : r.ok = true) (hsub : r.body.Submitted ≠ some "Yes") :
    (loadData initialState targetId urlId (.response r)).prefillData
      = some r.body ∧
    (loadData initialState targetId urlId (.response r)).status = .IDLE ∧
    (loadData initialState targetId urlId (.response r)).company = "" ∧
    (loadData initialState targetId urlId (.response r)).profession = "" ∧
    (loadData initialState targetId urlId (.response r)).description = "" := by
  simp [loadData, loadDataStart, hid, hok, hsub, initialState]

theorem C7_witness :
    resolveId (some "rsjk3i") none ≠ "" ∧
    (FetchResponse.mk true 200 "OK" sampleRecordYes).ok = true ∧
    sampleRecordNo.Submitted ≠ some "Yes" ∧
    ((loadData initialState (some "rsjk3i") none
        (.response (FetchResponse.mk true 200 "OK" sampleRecordNo))).prefillData
        = some sampleRecordNo ∧
     (loadData initialState (some "rsjk3i") none
        (.response (FetchResponse.mk true 200 "OK" sampleRecordNo))).status = .IDLE ∧
     (loadData initialState (some "rsjk3i") none
        (.response (FetchResponse.mk true 200 "OK" sampleRecordNo))).company = "" ∧
     (loadData initialState (some "rsjk3i") none
        (.response (FetchResponse.mk true 200 "OK" sampleRecordNo))).profession = "" ∧
     (loadData initialState (some "rsjk3i") none
        (.response (FetchResponse.mk true 200 "OK" sampleRecordNo))).description = "") :=
  ⟨by decide, rfl, by decide,
    C7_idle_empty_fields (some "rsjk3i") none
      (FetchResponse.mk true 200 "OK" sampleRecordNo) (by decide) rfl (by decide)⟩

/-- C8 as stated is false: the MISSING_ID screen exposes the sample-id
button (App.tsx line 125), whose handler re-runs loadData without a page
reload; here a concrete step from MISSING_ID leaves MISSING_ID. -/
theorem C8_counterexample :
    eventAvailable AppStatus.MISSING_ID Event.testLink = true ∧
    (step { initialState with status := .MISSING_ID } .testLink
        (Env.mk none (.thrown none) (.response true))).status = .ERROR ∧
    (step { initialState with status := .MISSING_ID } .testLink
        (Env.mk none (.thrown none) (.response true))).status
      ≠ .MISSING_ID := by
  decide

/-- C8 amended: ALREADY_SUBMITTED and SUCCESS are terminal (their
screens expose no event at all); MISSING_ID is not, since its screen
exposes the sample-id action; ERROR is recoverable, its Retry action
available and re-entering LOADING synchronously. -/
theorem C8_terminal_states (s : AppState) (e : Event)
    (h : s.status = .ALREADY_SUBMITTED ∨ s.status = .SUCCESS) :
    eventAvailable s.status e = false ∧
    eventAvailable .ERROR .retry = true ∧
    (loadDataStart s).status = .LOADING := by
  rcases h with h | h <;> rw [h] <;> cases e <;>
    simp [eventAvailable, loadDataStart]

theorem C8_witness :
    (({ initialState with status := .ALREADY_SUBMITTED } : AppState).status
        = .ALREADY_SUBMITTED ∨
      ({ initialState with status := .ALREADY_SUBMITTED } : AppState).status
        = .SUCCESS) ∧
    (eventAvailable
        ({ initialState with status := .ALREADY_SUBMITTED } : AppState).status
        .submit = false ∧
     eventAvailable .ERROR .retry = true ∧
     (loadDataStart { initialState with status := .ALREADY_SUBMITTED }).status
        = .LOADING) :=
  ⟨Or.inl rfl,
    C8_terminal_states { initialState with status := .ALREADY_SUBMITTED }
      .submit (Or.inl rfl)⟩

/-- C9: a successful write transitions status to SUCCESS and leaves the
submitting flag true. -/
theorem C9_success_flag (s : AppState) (urlId : Option String)
    (h : s.prefillData.isSome = true) :
    (handleSubmit s urlId (.response true)).1.status = .SUCCESS ∧
    (handleSubmit s urlId (.response true)).1.isSubmitting = true := by
  obtain ⟨data, hd⟩ := Option.isSome_iff_exists.mp h
  simp [handleSubmit, hd]

theorem C9_witness :
    paddedFieldsState.prefillData.isSome = true ∧
    ((handleSubmit paddedFieldsState none (.response true)).1.status
        = .SUCCESS ∧
     (handleSubmit paddedFieldsState none (.response true)).1.isSubmitting
        = true) :=
  ⟨rfl, C9_success_flag paddedFieldsState none rfl⟩

/-- C10: invoking submit with no loaded record is a complete no-op: the
state is returned unchanged and no payload is sent. -/
theorem C10_no_record_noop (s : AppState) (urlId : Option String)
    (o : WriteOutcome) (h : s.prefillData = none) :
    handleSubmit s urlId o = (s, none) := by
  simp [handleSubmit, h]

theorem C10_witness :
    ({ initialState with status := .IDLE } : AppState).prefillData = none ∧
    handleSubmit { initialState with status := .IDLE } (some "qid")
        (.response true)
      = ({ initialState with status := .IDLE }, none) :=
  ⟨rfl, C10_no_record_noop { initialState with status := .IDLE } (some "qid")
    (.response true) rfl⟩

end ConsultForm
